import Mathlib

/-!
# Verification of the trustgraph-client request/response multiplexing core

This development shallowly embeds the connection/request-multiplexing layer of
the TrustGraph TypeScript client (`src/socket/service-call.ts`,
`src/socket/service-call-multi.ts` and the `BaseApi` class of
`src/socket/trustgraph-socket.ts`, all concatenated into `src/index.ts`).

JavaScript values delivered over the wire are modelled by the inductive `JVal`
(JSON-like values); `undefined` is modelled by `Option JVal` where it can
occur.  Mutation of the `ServiceCall` / `ServiceCallMulti` objects and of the
`BaseApi` connection manager is modelled by explicit state passing, and the
externally observable actions (sending a frame, arming a timer, invoking a
user callback, reopening the socket, ...) are collected into a trace of `Eff`
values returned next to the updated state.  `console.log` calls are not
modelled; they carry no behaviour.

Timer delays appear in the trace as the symbolic expression the source
computes (`Delay`), with `Delay.value` giving the numeric evaluation in
rationals — exact, where JavaScript would use floating point — because
`Math.pow(2, 3 - this.retries)` can be fractional and the
`Math.random() * 1000` jitter is fractional; each jitter sample is passed in
as an explicit parameter.
-/

namespace TGC

mutual

/-- JSON-like runtime values (the parsed wire frames and their fields). -/
inductive JVal where
  | null : JVal
  | bool (b : Bool) : JVal
  | num (n : Int) : JVal
  | str (s : String) : JVal
  | obj (fields : JFields) : JVal
  | arr (elems : JArr) : JVal
  deriving DecidableEq

/-- The named properties of a JSON object, in insertion order. -/
inductive JFields where
  | nil : JFields
  | cons (k : String) (v : JVal) (rest : JFields) : JFields
  deriving DecidableEq

/-- The elements of a JSON array. -/
inductive JArr where
  | anil : JArr
  | acons (v : JVal) (rest : JArr) : JArr
  deriving DecidableEq

end

/-- First binding of a key among an object's properties. -/
def JFields.lookup : JFields → String → Option JVal
  | .nil, _ => none
  | .cons k v rest, key => if k = key then some v else rest.lookup key

/-- Build object properties from a list of bindings. -/
def JFields.ofList : List (String × JVal) → JFields
  | [] => .nil
  | (k, v) :: rest => .cons k v (ofList rest)

namespace JVal

/-- Object literal notation helper. -/
def mkObj (fields : List (String × JVal)) : JVal :=
  .obj (JFields.ofList fields)

/-- Property lookup `v[k]`; `none` models JavaScript `undefined`.
Only plain objects carry named properties in the frames we model. -/
def getField : JVal → String → Option JVal
  | .obj fields, k => fields.lookup k
  | _, _ => none

/-- The JavaScript `"k" in v` test (key present, value may still be null). -/
def hasField (v : JVal) (k : String) : Bool :=
  (v.getField k).isSome

/-- JavaScript truthiness of a defined value. -/
def truthy : JVal → Bool
  | .null => false
  | .bool b => b
  | .num n => n != 0
  | .str s => s != ""
  | .obj _ => true
  | .arr _ => true

/-- `v && typeof v === "object"`: a truthy value of object type
(`null` has object type but is falsy; arrays are objects). -/
def isObjLike : JVal → Bool
  | .obj _ => true
  | .arr _ => true
  | _ => false

end JVal

/-- Truthiness of a possibly-`undefined` value (`undefined` is falsy). -/
def optTruthy : Option JVal → Bool
  | some v => v.truthy
  | none => false

/-- The outbound envelope `{id, service, request, flow?}` built by
`makeRequest` / `makeRequestMulti`. -/
structure RequestMessage where
  id : String
  service : String
  request : JVal
  flow : Option String := none
  deriving DecidableEq

/-- `WebSocket.readyState` values. -/
inductive WsReadyState where
  | connecting | open | closing | closed
  deriving DecidableEq

/-- What a pending `setTimeout` will run when it fires. -/
inductive TimerEvt where
  | response_timeout   -- `setTimeout(this.onTimeout.bind(this), ...)`
  | retry_attempt      -- `setTimeout(this.attempt.bind(this), ...)`
  | reconnect          -- the connection manager's reconnect timer
  deriving DecidableEq

/-- Error values handed to a call's `error` callback: either
`new Error(msg)` or a plain string. -/
inductive ErrVal where
  | errObj (msg : String)
  | str (s : String)
  deriving DecidableEq

/-- A `setTimeout` delay, kept as the symbolic expression the source
computes; `Delay.value` gives its numeric evaluation. -/
inductive Delay where
  | ms (n : Nat)                            -- a literal delay (`this.timeout`, `500`)
  | backoff (retries : Int) (jitter : ℚ)    -- the per-call `calculateBackoff`
  | reconnect (attempt : Nat) (jitter : ℚ)  -- the connection manager's backoff
  deriving DecidableEq

/-- Numeric evaluation of a delay, in milliseconds:
`backoff` is `Math.min(2000 * Math.pow(2, 3 - retries) + jitter, 30000)`
(`ServiceCall.calculateBackoff` and the inline copies in
`ServiceCallMulti.attempt`); `reconnect` is
`Math.min(2000 * Math.pow(2, attempts - 1) + jitter, 30000)`
(`BaseApi.scheduleReconnect`, where `attempts ≥ 1`). -/
def Delay.value : Delay → ℚ
  | .ms n => n
  | .backoff r j => min (2000 * (2 : ℚ) ^ (3 - r) + j) 30000
  | .reconnect a j => min ((2000 * 2 ^ (a - 1) : ℕ) + j) 30000

/-- Externally observable actions of the embedded code. -/
inductive Eff where
  | sendMsg (m : RequestMessage)            -- `ws.send` succeeded
  | sendFail (m : RequestMessage)           -- `ws.send` threw
  | armTimer (t : TimerEvt) (d : Delay)     -- `setTimeout(_, d)`
  | clearTimer                              -- `clearTimeout(_)`
  | callSuccess (mid : String) (v : Option JVal)  -- success callback
  | callError (mid : String) (e : ErrVal)   -- error callback
  | recvCall (mid : String) (v : Option JVal) (fin : Bool) -- receiver predicate
  | reopenSocket                            -- `this.socket.reopen()`
  | notifyState                             -- `notifyStateChange()`
  | wsClose                                 -- `this.ws.close()`
  | detachHandlers                          -- `removeEventListener` block
  | openSocketEff                           -- `new WebSocket(...)` constructed
  | throwCaught                             -- exception swallowed by onMessage's catch
  deriving DecidableEq

/-- Shared mutable state of a `ServiceCall` / `ServiceCallMulti` object
(the multi variant additionally holds its receiver function, which we pass
as an explicit argument where needed). -/
structure CallSt where
  mid : String
  msg : RequestMessage
  timeout : Nat          -- milliseconds
  retries : Int          -- goes negative on exhaustion
  complete : Bool
  timeoutId : Option (TimerEvt × Delay)   -- the timer stored in `this.timeoutId`
  deriving DecidableEq

/-- The in-flight table `socket.inflight`, keyed by message id. -/
abbrev Table := List (String × CallSt)

/-- `delete this.socket.inflight[mid]` (keys are unique). -/
def Table.eraseKey (tbl : Table) (mid : String) : Table :=
  tbl.filter (fun e => e.1 ≠ mid)

/-- Reference semantics: the table holds the same object the methods mutate,
so a state update of the call is visible through its table entry. -/
def Table.updateEntry (tbl : Table) (mid : String) (c : CallSt) : Table :=
  tbl.map (fun e => if e.1 = mid then (mid, c) else e)

/-- Environment a single `attempt()` runs in: the socket's readiness
(`none` when `socket.ws` is undefined), whether `ws.send` would succeed,
and the sampled `Math.random() * 1000` jitter. -/
structure Env where
  wsReady : Option WsReadyState
  sendOk : Bool
  jitter : ℚ
  deriving DecidableEq

/-- The `errorToHandle` computation of `ServiceCall.onReceived`: an error
directly on the delivered value, else one nested under its `response` field. -/
def respErrorToHandle (resp : Option JVal) : Option JVal :=
  match resp with
  | none => none
  | some r =>
    if r.isObjLike && r.hasField "error" then r.getField "error"
    else if r.isObjLike && r.hasField "response" then
      match r.getField "response" with
      | some rr => if rr.isObjLike && rr.hasField "error" then rr.getField "error" else none
      | none => none
    else none

/-- Extraction of a human-readable message from a delivered error value:
`message` if it is a non-empty string, else `type`, else `"Unknown error"`
(the `||` chain makes an empty string fall through). -/
def pickErrorMessage (v : JVal) : String :=
  let m := match v.getField "message" with
    | some (JVal.str s) => s
    | _ => ""
  if m ≠ "" then m
  else
    let t := match v.getField "type" with
      | some (JVal.str s) => s
      | _ => ""
    if t ≠ "" then t else "Unknown error"

/-- The callback `ServiceCall.onReceived` fires after its bookkeeping: the
error callback when a truthy delivered error was found, otherwise the success
callback with `resp.response`.  A `resp` of `none` models the `undefined`
case, where reading `.response` throws and the exception is swallowed by
`onMessage`'s catch. -/
def scOnReceivedEffs (mid : String) (resp : Option JVal) : List Eff :=
  match respErrorToHandle resp with
  | some ev =>
    if ev.truthy then
      [Eff.clearTimer, Eff.callError mid (ErrVal.errObj (pickErrorMessage ev))]
    else
      match resp with
      | some r => [Eff.clearTimer, Eff.callSuccess mid (r.getField "response")]
      | none => [Eff.clearTimer, Eff.throwCaught]
  | none =>
    match resp with
    | some r => [Eff.clearTimer, Eff.callSuccess mid (r.getField "response")]
    | none => [Eff.clearTimer, Eff.throwCaught]

/-- `ServiceCall.onReceived(resp)`: marks the call complete, clears its timer,
removes it from the in-flight table, then either reports a delivered error or
invokes the success callback with `resp.response`. -/
def scOnReceived (c : CallSt) (tbl : Table) (resp : Option JVal) :
    CallSt × Table × List Eff :=
  let c' : CallSt := { c with complete := true, timeoutId := none }
  ((c'), (tbl.updateEntry c.mid c').eraseKey c.mid, scOnReceivedEffs c.mid resp)

/-- `ServiceCall.attempt()`: decrement the retry counter; fail if it went
negative; otherwise send on an open socket (arming the response timeout), or
schedule a backoff retry on send failure or when the socket is not open.
The completed-call guard only logs, so it does not appear in the model. -/
def scAttempt (env : Env) (c : CallSt) (tbl : Table) :
    CallSt × Table × List Eff :=
  let c := { c with retries := c.retries - 1 }
  if c.retries < 0 then
    (c, (tbl.updateEntry c.mid c).eraseKey c.mid,
      [Eff.clearTimer, Eff.callError c.mid (ErrVal.str "Ran out of retries")])
  else if env.wsReady = some WsReadyState.open then
    if env.sendOk then
      let c := { c with timeoutId := some (TimerEvt.response_timeout, Delay.ms c.timeout) }
      (c, tbl.updateEntry c.mid c,
        [Eff.sendMsg c.msg, Eff.armTimer TimerEvt.response_timeout (Delay.ms c.timeout)])
    else
      let d := Delay.backoff c.retries env.jitter
      let c := { c with timeoutId := some (TimerEvt.retry_attempt, d) }
      (c, tbl.updateEntry c.mid c,
        [Eff.sendFail c.msg, Eff.armTimer TimerEvt.retry_attempt d])
  else
    -- waiting for reconnection: the backoff timer is not stored in timeoutId
    (c, tbl.updateEntry c.mid c,
      [Eff.armTimer TimerEvt.retry_attempt (Delay.backoff c.retries env.jitter)])

/-- `ServiceCall.retryNow()`: no-op when complete; otherwise cancel the
pending timer, refund one retry and attempt immediately. -/
def scRetryNow (env : Env) (c : CallSt) (tbl : Table) :
    CallSt × Table × List Eff :=
  if c.complete then (c, tbl, [])
  else
    let c := { c with timeoutId := none, retries := c.retries + 1 }
    let r := scAttempt env c (tbl.updateEntry c.mid c)
    (r.1, r.2.1, Eff.clearTimer :: r.2.2)

/-- `ServiceCall.onTimeout()`: clear the fired timer and attempt again. -/
def scOnTimeout (env : Env) (c : CallSt) (tbl : Table) :
    CallSt × Table × List Eff :=
  let r := scAttempt env c tbl
  (r.1, r.2.1, Eff.clearTimer :: r.2.2)

/-- `ServiceCall.start()`: register in the in-flight table (a fresh key is
appended in object insertion order), then attempt. -/
def scStart (env : Env) (c : CallSt) (tbl : Table) :
    CallSt × Table × List Eff :=
  scAttempt env c (tbl.eraseKey c.mid ++ [(c.mid, c)])

/-- `ServiceCallMulti.onReceived(resp)`: every delivered value goes to the
receiver predicate; only a `true` result makes the call terminal (complete
flag, timer cleared, deregistered, success callback with the delivered
value).  On `false` nothing else happens: the call stays registered and its
timer is untouched. -/
def mcOnReceived (recv : Option JVal → Bool) (c : CallSt) (tbl : Table)
    (resp : Option JVal) : CallSt × Table × List Eff :=
  let fin := recv resp
  if fin then
    let c' : CallSt := { c with complete := true, timeoutId := none }
    ((c'), (tbl.updateEntry c.mid c').eraseKey c.mid,
      [Eff.recvCall c.mid resp true, Eff.clearTimer, Eff.callSuccess c.mid resp])
  else
    (c, tbl, [Eff.recvCall c.mid resp false])

/-- `ServiceCallMulti.attempt()`: same decrement/exhaustion/send structure as
the single-response variant, but on send failure it additionally calls
`socket.reopen()`, and when the socket is not ready it waits a fixed 500ms
while CONNECTING, or calls `socket.reopen()` before scheduling a backoff
retry otherwise. -/
def mcAttempt (env : Env) (c : CallSt) (tbl : Table) :
    CallSt × Table × List Eff :=
  let c := { c with retries := c.retries - 1 }
  if c.retries < 0 then
    (c, (tbl.updateEntry c.mid c).eraseKey c.mid,
      [Eff.clearTimer, Eff.callError c.mid (ErrVal.str "Ran out of retries")])
  else if env.wsReady = some WsReadyState.open then
    if env.sendOk then
      let c := { c with timeoutId := some (TimerEvt.response_timeout, Delay.ms c.timeout) }
      (c, tbl.updateEntry c.mid c,
        [Eff.sendMsg c.msg, Eff.armTimer TimerEvt.response_timeout (Delay.ms c.timeout)])
    else
      let d := Delay.backoff c.retries env.jitter
      let c := { c with timeoutId := some (TimerEvt.retry_attempt, d) }
      (c, tbl.updateEntry c.mid c,
        [Eff.sendFail c.msg, Eff.armTimer TimerEvt.retry_attempt d, Eff.reopenSocket])
  else if env.wsReady = some WsReadyState.connecting then
    (c, tbl.updateEntry c.mid c, [Eff.armTimer TimerEvt.retry_attempt (Delay.ms 500)])
  else
    (c, tbl.updateEntry c.mid c,
      [Eff.reopenSocket,
       Eff.armTimer TimerEvt.retry_attempt (Delay.backoff c.retries env.jitter)])

/-- `ServiceCallMulti.retryNow()` (textually identical to the single one). -/
def mcRetryNow (env : Env) (c : CallSt) (tbl : Table) :
    CallSt × Table × List Eff :=
  if c.complete then (c, tbl, [])
  else
    let c := { c with timeoutId := none, retries := c.retries + 1 }
    let r := mcAttempt env c (tbl.updateEntry c.mid c)
    (r.1, r.2.1, Eff.clearTimer :: r.2.2)

/-- `BaseApi.reconnectionState`. -/
inductive RState where
  | idle | reconnecting | failed
  deriving DecidableEq

/-- The connection-manager / router state of `BaseApi`.  The `ws` field is
the transport handle's readiness (`none` when `this.ws` is undefined); the
`reconnectTimer` field stores the armed delay as a stand-in for the timer
handle. -/
structure BApi where
  ws : Option WsReadyState
  tag : String
  idCtr : Nat
  token : Option String
  inflight : Table
  reconnectAttempts : Nat
  maxReconnectAttempts : Nat
  reconnectTimer : Option Delay
  reconnectionState : RState
  lastError : Option String
  deriving DecidableEq

/-- The routable identifier of an inbound frame: `onMessage` drops frames
whose `id` is missing or falsy.  Identifiers issued by this client are
non-empty strings, so only those can match the in-flight table. -/
def frameId (frame : JVal) : Option String :=
  match frame.getField "id" with
  | some (JVal.str s) => if s ≠ "" then some s else none
  | _ => none

/-- `BaseApi.onMessage` on an already-parsed frame: route
`obj.response` to `inflight[obj.id].onReceived` when the identifier has a
matching in-flight entry; otherwise drop the frame silently. -/
def onMessage (api : BApi) (frame : JVal) : BApi × List Eff :=
  match frameId frame with
  | some mid =>
    match api.inflight.lookup mid with
    | some c =>
      let r := scOnReceived c api.inflight (frame.getField "response")
      ({ api with inflight := r.2.1 }, r.2.2)
    | none => (api, [])
  | none => (api, [])

/-- `BaseApi.onOpen`: reset the reconnect counters and error marker, cancel
a pending reconnect timer, and publish the new state snapshot. -/
def onOpen (api : BApi) : BApi × List Eff :=
  ({ api with
      reconnectAttempts := 0, reconnectionState := RState.idle,
      lastError := none, reconnectTimer := none },
   (if api.reconnectTimer.isSome then [Eff.clearTimer] else []) ++ [Eff.notifyState])

/-- `BaseApi.scheduleReconnect`: no-op while a reconnection is in progress or
a timer is already armed; otherwise increment the attempt counter and either
mark the connection failed (erroring every in-flight call) once the counter
exceeds the maximum, or arm the exponential-backoff reconnect timer. -/
def scheduleReconnect (jitter : ℚ) (api : BApi) : BApi × List Eff :=
  if api.reconnectionState = RState.reconnecting then (api, [])
  else if api.reconnectTimer.isSome then (api, [])
  else
    let a := api.reconnectAttempts + 1
    let api := { api with reconnectionState := RState.reconnecting, reconnectAttempts := a }
    if a > api.maxReconnectAttempts then
      ({ api with
          reconnectionState := RState.failed,
          lastError := some "Max reconnection attempts exceeded" },
       [Eff.notifyState, Eff.notifyState] ++
         api.inflight.map (fun e => Eff.callError e.1 (ErrVal.errObj "WebSocket connection failed")))
    else
      let d := Delay.reconnect a jitter
      ({ api with reconnectTimer := some d },
       [Eff.notifyState, Eff.armTimer TimerEvt.reconnect d])

/-- `BaseApi.openSocket`: no-op when already connecting or open; otherwise
detach the old socket's handlers if one lingers, then construct a new
transport (`constructOk` says whether `new WebSocket` succeeds; a synchronous
construction failure triggers `scheduleReconnect`). -/
def openSocket (constructOk : Bool) (jitter : ℚ) (api : BApi) : BApi × List Eff :=
  if api.ws = some WsReadyState.connecting ∨ api.ws = some WsReadyState.open then
    (api, [])
  else
    let cleanup : BApi × List Eff :=
      if api.ws.isSome then ({ api with ws := none }, [Eff.detachHandlers]) else (api, [])
    if constructOk then
      ({ cleanup.1 with ws := some WsReadyState.connecting }, cleanup.2 ++ [Eff.openSocketEff])
    else
      let r := scheduleReconnect jitter cleanup.1
      (r.1, cleanup.2 ++ r.2)

/-- `BaseApi.reopen`: no-op when already open or connecting, else `openSocket`. -/
def reopen (constructOk : Bool) (jitter : ℚ) (api : BApi) : BApi × List Eff :=
  if api.ws = some WsReadyState.open ∨ api.ws = some WsReadyState.connecting then
    (api, [])
  else openSocket constructOk jitter api

/-- The reconnect timer's callback: clear the pending-timer marker, then
`reopen()`. -/
def reconnectFire (constructOk : Bool) (jitter : ℚ) (api : BApi) : BApi × List Eff :=
  reopen constructOk jitter { api with reconnectTimer := none }

/-- `BaseApi.close`: cancel a pending reconnect timer, detach handlers and
close the transport if present, fail every in-flight call with
`new Error("Socket closed")`, and clear the table. -/
def close (api : BApi) : BApi × List Eff :=
  let e1 : List Eff := if api.reconnectTimer.isSome then [Eff.clearTimer] else []
  let e2 : List Eff := if api.ws.isSome then [Eff.detachHandlers, Eff.wsClose] else []
  ({ api with reconnectTimer := none, ws := none, inflight := [] },
   e1 ++ e2 ++ api.inflight.map (fun e => Eff.callError e.1 (ErrVal.errObj "Socket closed")))

/-- Little-endian decimal digits of `n`, with explicit recursion fuel
(`fuel ≥ n` makes it exact). -/
def toDigitsRev : Nat → Nat → List Nat
  | 0, _ => []
  | fuel + 1, n => if n = 0 then [] else n % 10 :: toDigitsRev fuel (n / 10)

/-- Little-endian decimal digits of `n`. -/
def natDigitsRev (n : Nat) : List Nat :=
  toDigitsRev n n

/-- Decimal rendering of a counter, modelling JavaScript
`Number.prototype.toString()` (base 10). -/
def natToString (n : Nat) : String :=
  if n = 0 then "0"
  else String.mk (((natDigitsRev n).map Nat.digitChar).reverse)

/-- `BaseApi.getNextId`: `tag + "-" + id.toString()`, then increment. -/
def getNextId (api : BApi) : String × BApi :=
  (api.tag ++ "-" ++ natToString api.idCtr, { api with idCtr := api.idCtr + 1 })

/-- The client state after `k` successive `getNextId` invocations. -/
def iterNextId (api : BApi) : Nat → BApi
  | 0 => api
  | k + 1 => (getNextId (iterNextId api k)).2

/-- The identifier returned by the `(k+1)`-th `getNextId` invocation. -/
def issuedId (api : BApi) (k : Nat) : String :=
  (getNextId (iterNextId api k)).1

/-- An inbound frame `{id, response}`. -/
def mkFrame (mid : String) (p : JVal) : JVal :=
  JVal.mkObj [("id", JVal.str mid), ("response", p)]

/-- `BaseApi.onMessage` acting on a table of multi-response calls (the
in-flight table holds `ServiceCallMulti` objects when `makeRequestMulti`
issued the request): route `obj.response` to
`inflight[obj.id].onReceived`. -/
def mcOnMessage (recv : Option JVal → Bool) (tbl : Table) (frame : JVal) :
    Table × List Eff :=
  match frameId frame with
  | some mid =>
    match tbl.lookup mid with
    | some c =>
      let r := mcOnReceived recv c tbl (frame.getField "response")
      (r.2.1, r.2.2)
    | none => (tbl, [])
  | none => (tbl, [])

/-- Deliver a sequence of inbound frames, in order, to a table of
multi-response calls. -/
def mcRun (recv : Option JVal → Bool) (tbl : Table) : List JVal → Table × List Eff
  | [] => (tbl, [])
  | f :: fs =>
    let r := mcOnMessage recv tbl f
    let r2 := mcRun recv r.1 fs
    (r2.1, r.2 ++ r2.2)

/-- Iterated `ServiceCall.attempt()` as its scheduled retry timers fire with
no reply ever arriving; the `n`-th invocation runs in environment `env n`. -/
def scAttemptIter (env : Nat → Env) : Nat → CallSt → Table → CallSt × Table × List Eff
  | 0, c, tbl => (c, tbl, [])
  | k + 1, c, tbl =>
    let r := scAttempt (env 0) c tbl
    let r2 := scAttemptIter (fun n => env (n + 1)) k r.1 r.2.1
    (r2.1, r2.2.1, r.2.2 ++ r2.2.2)

/-- Expected trace of a registered multi-response call fed a stream of
payloads: one receiver invocation per frame in arrival order, terminating
(timer cleared, success callback with the delivered payload) on the first
payload the receiver accepts. -/
def expectedMultiTrace (recv : Option JVal → Bool) (mid : String) :
    List JVal → List Eff
  | [] => []
  | p :: ps =>
    if recv (some p) then
      [Eff.recvCall mid (some p) true, Eff.clearTimer, Eff.callSuccess mid (some p)]
    else
      Eff.recvCall mid (some p) false :: expectedMultiTrace recv mid ps

/-- Expected trace of `r + 1` chained `attempt()` invocations under a dead
transport: `r` backoff re-schedules, then the terminal retry-exhaustion
failure. -/
def expectedRetryTrace (env : Nat → Env) (mid : String) : Nat → List Eff
  | 0 => [Eff.clearTimer, Eff.callError mid (ErrVal.str "Ran out of retries")]
  | k + 1 =>
    Eff.armTimer TimerEvt.retry_attempt (Delay.backoff k (env 0).jitter) ::
      expectedRetryTrace (fun n => env (n + 1)) mid k

/-- Effects by which an `attempt()` invocation tries to make progress on the
call: an actual send, or the scheduling of a timer that will retry. -/
def progressEff : Eff → Bool
  | Eff.sendMsg _ => true
  | Eff.sendFail _ => true
  | Eff.armTimer _ _ => true
  | _ => false

/-! ### Concrete fixtures used by counterexamples and witnesses -/

/-- A sample outbound envelope. -/
def msgC1 : RequestMessage := ⟨"c1-1", "echo", JVal.null, none⟩

/-- A call that has already completed (`complete = true`) with an exhausted
retry budget. -/
def cC1 : CallSt := ⟨"c1-1", msgC1, 100, 0, true, none⟩

/-- An open transport that accepts sends. -/
def envC1 : Env := ⟨some WsReadyState.open, true, 0⟩

/-- A client with an empty in-flight table. -/
def apiC1 : BApi := ⟨some WsReadyState.open, "w", 1, none, [], 0, 10, none, RState.idle, none⟩

/-- A call waiting on its backoff timer, retry budget 2. -/
def cC2 : CallSt :=
  ⟨"c2-1", ⟨"c2-1", "echo", JVal.null, none⟩, 100, 2, false,
   some (TimerEvt.retry_attempt, Delay.backoff 2 0)⟩

/-- A client whose transport just reopened: the open event fires while one
call is in flight, a reconnect timer is pending, and 4 reconnect attempts
have been counted. -/
def apiC2 : BApi :=
  ⟨some WsReadyState.open, "w", 2, none, [("c2-1", cC2)], 4, 10,
   some (Delay.reconnect 4 0), RState.reconnecting, some "Connection closed: gone"⟩

/-- The reply payload `{y: 2}` of the inbound frame `{id, response: {y: 2}}`. -/
def pC4 : JVal := JVal.mkObj [("y", JVal.num 2)]

/-- A call awaiting its reply. -/
def cC4 : CallSt :=
  ⟨"w-1", ⟨"w-1", "echo", JVal.null, none⟩, 100, 3, false,
   some (TimerEvt.response_timeout, Delay.ms 100)⟩

/-- A client with the single call `cC4` in flight. -/
def apiC4 : BApi :=
  ⟨some WsReadyState.open, "w", 2, none, [("w-1", cC4)], 0, 10, none, RState.idle, none⟩

/-- The `new Error("Socket closed")` effect delivered by `close()`. -/
def isSocketClosedErr : Eff → Bool
  | Eff.callError _ (ErrVal.errObj m) => m == "Socket closed"
  | _ => false

/-- Two calls in flight, in distinct retry states. -/
def cC6a : CallSt :=
  ⟨"c6-1", ⟨"c6-1", "echo", JVal.null, none⟩, 100, 3, false,
   some (TimerEvt.response_timeout, Delay.ms 100)⟩

/-- Second in-flight call, almost out of retries. -/
def cC6b : CallSt :=
  ⟨"c6-2", ⟨"c6-2", "agent", JVal.null, none⟩, 200, 0, false,
   some (TimerEvt.retry_attempt, Delay.backoff 0 0)⟩

/-- A connected client with two calls in flight and a pending reconnect
timer. -/
def apiC6 : BApi :=
  ⟨some WsReadyState.open, "w", 3, none, [("c6-1", cC6a), ("c6-2", cC6b)], 0, 10,
   some (Delay.reconnect 1 0), RState.idle, none⟩

/-- An idle client about to schedule its 4th reconnect attempt. -/
def apiC7a : BApi :=
  ⟨none, "w", 1, none, [], 3, 10, none, RState.idle, none⟩

/-- A live call with retry budget 2 and no pending timer. -/
def cC9 : CallSt :=
  ⟨"c9-1", ⟨"c9-1", "graph-rag", JVal.null, none⟩, 100, 2, false, none⟩

/-- The in-flight table holding only `cC9`. -/
def tC9 : Table := [("c9-1", cC9)]

/-- A transport handle in the CLOSED ready-state (send irrelevant). -/
def envC9 : Env := ⟨some WsReadyState.closed, true, 0⟩

/-- A fresh call with retry budget 1. -/
def cC3 : CallSt := ⟨"c3-1", ⟨"c3-1", "echo", JVal.null, none⟩, 100, 1, false, none⟩

/-- A fresh call with retry budget 2. -/
def cC3w : CallSt := ⟨"c3w-1", ⟨"c3w-1", "echo", JVal.null, none⟩, 100, 2, false, none⟩

/-- A transport that stays unavailable (`socket.ws` undefined) forever. -/
def envC3 : Nat → Env := fun _ => ⟨none, true, 0⟩

/-- A receiver predicate accepting payloads whose `done` field is `true`. -/
def recvDone : Option JVal → Bool := fun o =>
  match o with
  | some v => v.getField "done" = some (JVal.bool true)
  | none => false

/-- A non-final streaming payload. -/
def pC5f : JVal := JVal.mkObj [("done", JVal.bool false), ("chunk", JVal.str "a")]

/-- The final streaming payload. -/
def pC5t : JVal := JVal.mkObj [("done", JVal.bool true)]

/-- A registered multi-response call. -/
def cC5 : CallSt :=
  ⟨"c5-1", ⟨"c5-1", "agent", JVal.null, none⟩, 100, 2, false,
   some (TimerEvt.response_timeout, Delay.ms 100)⟩

/-- A live call waiting out a dead transport. -/
def cC10 : CallSt :=
  ⟨"z-1", ⟨"z-1", "echo", JVal.null, none⟩, 100, 1, false,
   some (TimerEvt.retry_attempt, Delay.backoff 1 0)⟩

/-- A client that has used all 10 reconnect attempts with `cC10` in flight. -/
def apiC10 : BApi :=
  ⟨none, "w", 2, none, [("z-1", cC10)], 10, 10, none, RState.idle,
   some "Connection closed: gone"⟩

/-- An error-free reply payload `{response: 7}`. -/
def pC10 : JVal := JVal.mkObj [("response", JVal.num 7)]

/-- Numeric value of a decimal digit character (inverse of
`Nat.digitChar` on digits). -/
def decDigitVal (ch : Char) : Nat := ch.toNat - 48

/-- Value of a little-endian decimal digit list. -/
def parseRev : List Nat → Nat
  | [] => 0
  | d :: ds => d + 10 * parseRev ds

/-- Parse a decimal string back to the counter it renders. -/
def parseNat (s : String) : Nat :=
  parseRev (s.data.reverse.map decDigitVal)

/-- A freshly constructed client (tag `"k7f2"`, counter at 1). -/
def apiC8 : BApi := ⟨none, "k7f2", 1, none, [], 0, 10, none, RState.idle, none⟩

/-- A client that already used all 10 reconnect attempts, with one call in
flight. -/
def apiC7b : BApi :=
  ⟨none, "w", 1, none, [("c2-1", cC2)], 10, 10, none, RState.idle,
   some "Connection closed: gone"⟩

end TGC

/-! ## Theorems -/

namespace TGC

/-- Lookup of an erased key fails. -/
theorem lookup_eraseKey (tbl : Table) (k : String) :
    (tbl.eraseKey k).lookup k = none := by
  induction tbl with
  | nil => rfl
  | cons e t ih =>
    by_cases h : e.1 = k
    · simpa [Table.eraseKey, List.filter_cons, h] using ih
    · simpa [Table.eraseKey, List.filter_cons, h, List.lookup_cons,
        Ne.symm h] using ih

/-- A successful lookup comes from a table entry. -/
theorem lookup_mem {tbl : Table} {k : String} {c : CallSt}
    (h : tbl.lookup k = some c) : (k, c) ∈ tbl := by
  induction tbl with
  | nil => simp [List.lookup] at h
  | cons e t ih =>
    rcases e with ⟨k', c'⟩
    by_cases hk : k = k'
    · subst hk
      simp [List.lookup_cons] at h
      simp [h]
    · have hb : (k == k') = false := beq_eq_false_iff_ne.mpr hk
      simp [List.lookup_cons, hb] at h
      exact List.mem_cons_of_mem _ (ih h)

/-- C1 — counterexample.  The claim asserts that on a completed call any
further `attempt()` or `onReceived()` invocation "leaves the call's state
unmutated and invokes no success/error/receiver callback".  In the source
both guards only `console.log` and fall through: `attempt()` on the
completed call `cC1` (retry budget already 0) decrements the budget and
invokes the error callback, and `onReceived()` on it invokes the success
callback again. -/
theorem c1_counterexample :
    (scAttempt envC1 cC1 [("c1-1", cC1)]).1 ≠ cC1 ∧
    Eff.callError "c1-1" (ErrVal.str "Ran out of retries")
      ∈ (scAttempt envC1 cC1 [("c1-1", cC1)]).2.2 ∧
    Eff.callSuccess "c1-1" (some (JVal.num 1))
      ∈ (scOnReceived cC1 [("c1-1", cC1)]
          (some (JVal.mkObj [("response", JVal.num 1)]))).2.2 := by
  decide

/-- C1 — amended.  Once the completion flag is set, `retryNow` is a no-op,
and completion removes the call's entry from the in-flight table, so the
message router dispatches no further frames to that identifier; a direct
invocation of `attempt` or `onReceived` on a completed call, however, is
only logged and still proceeds (in particular `attempt` always decrements
the retry budget). -/
theorem c1_amended :
    (∀ (env : Env) (c : CallSt) (tbl : Table), c.complete = true →
      scRetryNow env c tbl = (c, tbl, []) ∧ mcRetryNow env c tbl = (c, tbl, [])) ∧
    (∀ (c : CallSt) (tbl : Table) (resp : Option JVal),
      (scOnReceived c tbl resp).1.complete = true ∧
      (scOnReceived c tbl resp).2.1.lookup c.mid = none) ∧
    (∀ (recv : Option JVal → Bool) (c : CallSt) (tbl : Table) (resp : Option JVal),
      recv resp = true →
      (mcOnReceived recv c tbl resp).2.1.lookup c.mid = none) ∧
    (∀ (api : BApi) (frame : JVal) (mid : String), frameId frame = some mid →
      api.inflight.lookup mid = none → onMessage api frame = (api, [])) ∧
    (∀ (env : Env) (c : CallSt) (tbl : Table),
      (scAttempt env c tbl).1.retries = c.retries - 1) := by
  refine ⟨?_, ?_, ?_, ?_, ?_⟩
  · intro env c tbl h
    constructor <;> simp [scRetryNow, mcRetryNow, h]
  · intro c tbl resp
    exact ⟨rfl, lookup_eraseKey _ _⟩
  · intro recv c tbl resp h
    simp only [mcOnReceived, h, if_true]
    exact lookup_eraseKey _ _
  · intro api frame mid h1 h2
    simp [onMessage, h1, h2]
  · intro env c tbl
    unfold scAttempt
    dsimp only
    split
    · rfl
    · split
      · split <;> rfl
      · rfl

/-- C1 — witness for the amended theorem's hypotheses, at concrete inputs. -/
theorem c1_witness :
    scRetryNow envC1 cC1 [] = (cC1, [], []) ∧
    (mcOnReceived (fun _ => true) cC1 [("c1-1", cC1)] none).2.1.lookup "c1-1" = none ∧
    onMessage apiC1 (mkFrame "z-9" JVal.null) = (apiC1, []) ∧
    (scAttempt envC1 cC1 []).1.retries = cC1.retries - 1 :=
  ⟨(c1_amended.1 envC1 cC1 [] rfl).1,
   c1_amended.2.2.1 (fun _ => true) cC1 [("c1-1", cC1)] none rfl,
   c1_amended.2.2.2.1 apiC1 (mkFrame "z-9" JVal.null) "z-9" (by decide) rfl,
   c1_amended.2.2.2.2 envC1 cC1 []⟩

/-- C2 — the code diverges from the claim (code bug).  On the transport's
open event the claim (and the doc comment of `retryNow` itself: "Called when
socket connects") says every in-flight call's `retryNow` is invoked, which
would cancel its backoff timer, refund one retry and re-attempt.  The
source's `onOpen` only resets the reconnect counters, clears the failure
marker and last error, cancels the reconnect timer and publishes the
snapshot: evaluated at `apiC2` (one call in flight, waiting on its backoff
timer with retry budget 2), the full effect trace is
`[clearTimer, notifyState]` — no send, no attempt, no per-call effect — and
the call's state, budget and pending backoff timer are untouched. -/
theorem c2_code_bug :
    onOpen apiC2 =
      ({ apiC2 with
          reconnectAttempts := 0, reconnectionState := RState.idle,
          lastError := none, reconnectTimer := none },
       [Eff.clearTimer, Eff.notifyState]) ∧
    (onOpen apiC2).1.inflight = apiC2.inflight ∧
    (onOpen apiC2).1.inflight.lookup "c2-1" = some cC2 := by
  decide

/-- C4 — the code diverges from the claim (code bug).  For the inbound frame
`{id: "w-1", response: {y: 2}}` matching the in-flight call `cC4`, the claim
(and the spec's own example, and the comment inside `ServiceCall.onReceived`
that its parameter is "the full message: {id, response, complete}") says the
success callback receives the frame's `response` field `{y: 2}`.  The router
`onMessage` passes `obj.response` to `onReceived`, which extracts `.response`
a second time, so the success callback is invoked with
`undefined` (`none`), never with `{y: 2}`.  (The rest of the claim holds:
the entry is removed from the in-flight table before the callback runs, and
the callback fires exactly once.) -/
theorem c4_code_bug :
    onMessage apiC4 (mkFrame "w-1" pC4) =
      ({ apiC4 with inflight := [] },
       [Eff.clearTimer, Eff.callSuccess "w-1" none]) ∧
    Eff.callSuccess "w-1" (some pC4) ∉ (onMessage apiC4 (mkFrame "w-1" pC4)).2 := by
  decide

/-- C6 — confirmed.  For every client state, `close()` empties the in-flight
table, clears the reconnect timer, releases the transport, fails each of the
N in-flight calls with `new Error("Socket closed")` (exactly N such error
callbacks fire — regardless of each call's retry state, which the universal
quantification over the table covers), closes the transport when present,
and cancels the pending reconnect timer when armed. -/
theorem c6_close (api : BApi) :
    (close api).1.inflight = [] ∧
    (close api).1.reconnectTimer = none ∧
    (close api).1.ws = none ∧
    (close api).2.countP isSocketClosedErr = api.inflight.length ∧
    (∀ e ∈ api.inflight,
      Eff.callError e.1 (ErrVal.errObj "Socket closed") ∈ (close api).2) ∧
    (api.ws.isSome = true →
      Eff.detachHandlers ∈ (close api).2 ∧ Eff.wsClose ∈ (close api).2) ∧
    (api.reconnectTimer.isSome = true → Eff.clearTimer ∈ (close api).2) := by
  refine ⟨rfl, rfl, rfl, ?_, ?_, ?_, ?_⟩
  · by_cases h1 : api.reconnectTimer.isSome <;>
      by_cases h2 : api.ws.isSome <;>
        simp [close, h1, h2, List.countP_append, List.countP_map,
          Function.comp, isSocketClosedErr, List.countP_true]
  · intro e he
    have : Eff.callError e.1 (ErrVal.errObj "Socket closed")
        ∈ api.inflight.map (fun e => Eff.callError e.1 (ErrVal.errObj "Socket closed")) :=
      List.mem_map_of_mem _ he
    simp [close]
    tauto
  · intro h
    simp [close, h]
  · intro h
    simp [close, h]

/-- C6 — witness: the conditional conclusions at the concrete client
`apiC6` (transport present, reconnect timer armed, two in-flight calls). -/
theorem c6_witness :
    (close apiC6).2.countP isSocketClosedErr = apiC6.inflight.length ∧
    Eff.callError "c6-2" (ErrVal.errObj "Socket closed") ∈ (close apiC6).2 ∧
    Eff.wsClose ∈ (close apiC6).2 ∧
    Eff.clearTimer ∈ (close apiC6).2 :=
  ⟨(c6_close apiC6).2.2.2.1,
   (c6_close apiC6).2.2.2.2.1 ("c6-2", cC6b) (by decide),
   ((c6_close apiC6).2.2.2.2.2.1 (by decide)).2,
   (c6_close apiC6).2.2.2.2.2.2 (by decide)⟩

/-- C7 — confirmed.  `scheduleReconnect` is a no-op while a reconnection is
in progress or a reconnect timer is already armed.  Otherwise it increments
the attempt counter and (a) past the configured maximum of 10 marks the
connection state permanently failed and fails every in-flight call with a
transport-failure error, arming no timer, or (b) arms a reconnect timer
whose delay evaluates to `min(2000 * 2^(attempt-1) + jitter, 30000)`
milliseconds; the timer's callback clears the pending-timer marker and
attempts to open the socket again. -/
theorem c7_scheduleReconnect (jitter : ℚ) (api : BApi) :
    (api.reconnectionState = RState.reconnecting →
      scheduleReconnect jitter api = (api, [])) ∧
    (api.reconnectTimer.isSome = true →
      scheduleReconnect jitter api = (api, [])) ∧
    (api.reconnectionState ≠ RState.reconnecting → api.reconnectTimer = none →
      api.maxReconnectAttempts = 10 →
      (api.reconnectAttempts + 1 > 10 →
        scheduleReconnect jitter api =
          ({ api with
              reconnectionState := RState.failed,
              reconnectAttempts := api.reconnectAttempts + 1,
              lastError := some "Max reconnection attempts exceeded" },
           Eff.notifyState :: Eff.notifyState ::
             api.inflight.map
               (fun e => Eff.callError e.1 (ErrVal.errObj "WebSocket connection failed")))) ∧
      (api.reconnectAttempts + 1 ≤ 10 →
        scheduleReconnect jitter api =
          ({ api with
              reconnectionState := RState.reconnecting,
              reconnectAttempts := api.reconnectAttempts + 1,
              reconnectTimer :=
                some (Delay.reconnect (api.reconnectAttempts + 1) jitter) },
           [Eff.notifyState,
            Eff.armTimer TimerEvt.reconnect
              (Delay.reconnect (api.reconnectAttempts + 1) jitter)]) ∧
        (Delay.reconnect (api.reconnectAttempts + 1) jitter).value =
          min (((2000 * 2 ^ api.reconnectAttempts : ℕ) : ℚ) + jitter) 30000)) ∧
    (api.ws = none →
      reconnectFire true jitter api =
        ({ api with reconnectTimer := none, ws := some WsReadyState.connecting },
         [Eff.openSocketEff])) := by
  refine ⟨?_, ?_, ?_, ?_⟩
  · intro h
    simp [scheduleReconnect, h]
  · intro h
    by_cases h1 : api.reconnectionState = RState.reconnecting <;>
      simp [scheduleReconnect, h1, h]
  · intro h1 h2 h3
    constructor
    · intro h4
      simp [scheduleReconnect, h1, h2, h3, h4]
    · intro h4
      refine ⟨?_, ?_⟩
      · simp [scheduleReconnect, h1, h2, h3, Nat.not_lt.mpr h4]
      · simp [Delay.value, Nat.add_sub_cancel]
  · intro h
    simp [reconnectFire, reopen, openSocket, scheduleReconnect, h]

/-- C7 — witness: the backoff branch at `apiC7a` (attempt counter 3, so the
armed delay is `min(2000*2^3 + 7, 30000)`), the failure branch at `apiC7b`
(counter already 10), and the timer callback at `apiC7a`. -/
theorem c7_witness :
    scheduleReconnect 7 apiC7a =
      ({ apiC7a with
          reconnectionState := RState.reconnecting, reconnectAttempts := 4,
          reconnectTimer := some (Delay.reconnect 4 7) },
       [Eff.notifyState, Eff.armTimer TimerEvt.reconnect (Delay.reconnect 4 7)]) ∧
    scheduleReconnect 0 apiC7b =
      ({ apiC7b with
          reconnectionState := RState.failed, reconnectAttempts := 11,
          lastError := some "Max reconnection attempts exceeded" },
       [Eff.notifyState, Eff.notifyState,
        Eff.callError "c2-1" (ErrVal.errObj "WebSocket connection failed")]) ∧
    reconnectFire true 0 apiC7a =
      ({ apiC7a with reconnectTimer := none, ws := some WsReadyState.connecting },
       [Eff.openSocketEff]) :=
  ⟨(((c7_scheduleReconnect 7 apiC7a).2.2.1 (by decide) rfl rfl).2 (by decide)).1,
   by
    have h := ((c7_scheduleReconnect 0 apiC7b).2.2.1 (by decide) rfl rfl).1 (by decide)
    simpa using h,
   (c7_scheduleReconnect 0 apiC7a).2.2.2 rfl⟩

/-- C9 — counterexample.  The claim asserts that for every shared input
state the multi-response `attempt()` performs the same state transitions,
delays and side effects as the single-response one.  With the transport
handle present but CLOSED and a live call (`cC9`, budget 2), the
single-response variant only schedules an exponential-backoff retry, while
the multi-response variant additionally invokes `socket.reopen()`. -/
theorem c9_counterexample :
    scAttempt envC9 cC9 tC9 ≠ mcAttempt envC9 cC9 tC9 ∧
    Eff.reopenSocket ∈ (mcAttempt envC9 cC9 tC9).2.2 ∧
    Eff.reopenSocket ∉ (scAttempt envC9 cC9 tC9).2.2 := by
  decide

/-- C9 — amended.  The two `attempt()` implementations agree on the
retry-exhaustion path and on the successful-send path (same state
transition, same delays, same effects); they diverge exactly when the send
fails or the transport is not open: `ServiceCallMulti.attempt` additionally
invokes `socket.reopen()` (after a send failure, and when the socket is
closed or absent) and polls on a fixed 500 ms delay while the socket is
CONNECTING, whereas `ServiceCall.attempt` only schedules the
exponential-backoff retry and never calls `reopen`.  Received-frame handling
(the receiver predicate) differs as the claim says. -/
theorem c9_amended (env : Env) (c : CallSt) (tbl : Table) :
    (c.retries - 1 < 0 → scAttempt env c tbl = mcAttempt env c tbl) ∧
    (¬ c.retries - 1 < 0 → env.wsReady = some WsReadyState.open →
      env.sendOk = true → scAttempt env c tbl = mcAttempt env c tbl) ∧
    (¬ c.retries - 1 < 0 → env.wsReady = some WsReadyState.open →
      env.sendOk = false →
      mcAttempt env c tbl =
        ((scAttempt env c tbl).1, (scAttempt env c tbl).2.1,
         (scAttempt env c tbl).2.2 ++ [Eff.reopenSocket])) ∧
    (¬ c.retries - 1 < 0 → env.wsReady ≠ some WsReadyState.open →
      scAttempt env c tbl =
        ({ c with retries := c.retries - 1 },
         tbl.updateEntry c.mid { c with retries := c.retries - 1 },
         [Eff.armTimer TimerEvt.retry_attempt
            (Delay.backoff (c.retries - 1) env.jitter)]) ∧
      mcAttempt env c tbl =
        ({ c with retries := c.retries - 1 },
         tbl.updateEntry c.mid { c with retries := c.retries - 1 },
         if env.wsReady = some WsReadyState.connecting then
           [Eff.armTimer TimerEvt.retry_attempt (Delay.ms 500)]
         else
           [Eff.reopenSocket,
            Eff.armTimer TimerEvt.retry_attempt
              (Delay.backoff (c.retries - 1) env.jitter)])) := by
  refine ⟨?_, ?_, ?_, ?_⟩
  · intro h
    simp [scAttempt, mcAttempt, h]
  · intro h h1 h2
    simp [scAttempt, mcAttempt, h, h1, h2]
  · intro h h1 h2
    simp [scAttempt, mcAttempt, h, h1, h2]
  · intro h h1
    by_cases h2 : env.wsReady = some WsReadyState.connecting <;>
      constructor <;> simp [scAttempt, mcAttempt, h, h1, h2]

/-- C9 — witness: the agreement branches and both divergence branches of
the amended theorem at concrete inputs. -/
theorem c9_witness :
    scAttempt ⟨some WsReadyState.open, true, 0⟩ cC9 tC9 =
      mcAttempt ⟨some WsReadyState.open, true, 0⟩ cC9 tC9 ∧
    mcAttempt ⟨some WsReadyState.open, false, 0⟩ cC9 tC9 =
      ((scAttempt ⟨some WsReadyState.open, false, 0⟩ cC9 tC9).1,
       (scAttempt ⟨some WsReadyState.open, false, 0⟩ cC9 tC9).2.1,
       (scAttempt ⟨some WsReadyState.open, false, 0⟩ cC9 tC9).2.2 ++
         [Eff.reopenSocket]) ∧
    scAttempt envC9 cC9 tC9 =
      ({ cC9 with retries := 1 }, tC9.updateEntry "c9-1" { cC9 with retries := 1 },
       [Eff.armTimer TimerEvt.retry_attempt (Delay.backoff 1 0)]) :=
  ⟨(c9_amended ⟨some WsReadyState.open, true, 0⟩ cC9 tC9).2.1 (by decide) rfl rfl,
   (c9_amended ⟨some WsReadyState.open, false, 0⟩ cC9 tC9).2.2.1 (by decide) rfl rfl,
   ((c9_amended envC9 cC9 tC9).2.2.2 (by decide) (by decide)).1⟩

/-- Chained `attempt()` invocations under a transport that is never open:
`r + 1` invocations starting from retry budget `r` produce `r` backoff
re-schedules, then the terminal failure, leaving the call's budget at `-1`
and the in-flight table empty. -/
theorem scAttemptIter_closed (r : Nat) :
    ∀ (env : Nat → Env) (c : CallSt),
      (∀ n, (env n).wsReady ≠ some WsReadyState.open) → c.retries = (r : Int) →
      scAttemptIter env (r + 1) c [(c.mid, c)] =
        ({ c with retries := -1 }, [], expectedRetryTrace env c.mid r) := by
  induction r with
  | zero =>
    intro env c h hr
    have hlt : c.retries - 1 < 0 := by rw [hr]; norm_num
    simp [scAttemptIter, scAttempt, hlt, Table.updateEntry, Table.eraseKey,
      expectedRetryTrace]
    exact_mod_cast hr
  | succ k ih =>
    intro env c h hr
    have hlt : ¬ c.retries - 1 < 0 := by rw [hr]; push_cast; omega
    have hws : ¬ (env 0).wsReady = some WsReadyState.open := h 0
    have hr1 : c.retries - 1 = (k : Int) := by rw [hr]; push_cast; ring
    show (let r := scAttempt (env 0) c [(c.mid, c)]
          let r2 := scAttemptIter (fun n => env (n + 1)) (k + 1) r.1 r.2.1
          (r2.1, r2.2.1, r.2.2 ++ r2.2.2)) = _
    have hstep : scAttempt (env 0) c [(c.mid, c)] =
        ({ c with retries := c.retries - 1 },
         [(c.mid, { c with retries := c.retries - 1 })],
         [Eff.armTimer TimerEvt.retry_attempt
            (Delay.backoff (c.retries - 1) ((env 0).jitter))]) := by
      simp [scAttempt, hlt, hws, Table.updateEntry]
    rw [hstep]
    have ihe := ih (fun n => env (n + 1)) { c with retries := c.retries - 1 }
      (fun n => h (n + 1)) hr1
    rw [hr1] at ihe
    simp [ihe, expectedRetryTrace, hr1]

/-- The predicted dead-transport trace makes exactly `r` progress attempts. -/
theorem expectedRetryTrace_countP (r : Nat) :
    ∀ (env : Nat → Env) (mid : String),
      (expectedRetryTrace env mid r).countP progressEff = r := by
  induction r with
  | zero => intro env mid; rfl
  | succ k ih =>
    intro env mid
    simp [expectedRetryTrace, List.countP_cons, ih, progressEff]

/-- The predicted dead-transport trace ends in the retry-exhaustion error. -/
theorem expectedRetryTrace_getLast (r : Nat) :
    ∀ (env : Nat → Env) (mid : String),
      (expectedRetryTrace env mid r).getLast? =
        some (Eff.callError mid (ErrVal.str "Ran out of retries")) := by
  induction r with
  | zero => intro env mid; rfl
  | succ k ih =>
    intro env mid
    rw [expectedRetryTrace, List.getLast?_cons]
    ·
      have := ih (fun n => env (n + 1)) mid
      cases hl : expectedRetryTrace (fun n => env (n + 1)) mid k with
      | nil => rw [hl] at this; simp at this
      | cons a l => rw [hl] at this; simpa [List.getLast?_cons] using this

/-- C3 — counterexample.  The claim predicts that a call with retry budget 1
under a dead transport fails "after exactly retries + 1 = 2 invocations of
attempt that each try to make progress".  Running the code from budget 1,
the error callback fires while only one invocation made progress (the
single backoff re-schedule): the second invocation fails immediately
without attempting anything. -/
theorem c3_counterexample :
    (scAttemptIter envC3 2 cC3 [("c3-1", cC3)]).2.2.countP progressEff = 1 ∧
    Eff.callError "c3-1" (ErrVal.str "Ran out of retries")
      ∈ (scAttemptIter envC3 2 cC3 [("c3-1", cC3)]).2.2 := by
  decide

/-- C3 — amended.  A single-response call with retry budget `retries` that
never receives a reply and whose transport remains unavailable throughout is
failed with the "Ran out of retries" error on the `(retries + 1)`-th
invocation of `attempt`: the first `retries` invocations each try to make
progress (each schedules a backoff re-attempt; the counter is decremented
first, so the initial invocation is one of these), the final invocation
makes no progress attempt but clears the timer, removes the entry from the
in-flight table and invokes the error callback. -/
theorem c3_amended (r : Nat) (env : Nat → Env) (mid : String)
    (msg : RequestMessage) (tmo : Nat)
    (h : ∀ n, (env n).wsReady ≠ some WsReadyState.open) :
    scAttemptIter env (r + 1) ⟨mid, msg, tmo, (r : Int), false, none⟩
        [(mid, ⟨mid, msg, tmo, (r : Int), false, none⟩)] =
      (⟨mid, msg, tmo, -1, false, none⟩, [], expectedRetryTrace env mid r) ∧
    (expectedRetryTrace env mid r).countP progressEff = r ∧
    (expectedRetryTrace env mid r).getLast? =
      some (Eff.callError mid (ErrVal.str "Ran out of retries")) :=
  ⟨scAttemptIter_closed r env ⟨mid, msg, tmo, (r : Int), false, none⟩ h rfl,
   expectedRetryTrace_countP r env mid,
   expectedRetryTrace_getLast r env mid⟩

/-- C3 — witness: the amended theorem at retry budget 2 under the
never-available transport. -/
theorem c3_witness :
    scAttemptIter envC3 3 cC3w [("c3w-1", cC3w)] =
      (⟨"c3w-1", ⟨"c3w-1", "echo", JVal.null, none⟩, 100, -1, false, none⟩, [],
       expectedRetryTrace envC3 "c3w-1" 2) ∧
    (expectedRetryTrace envC3 "c3w-1" 2).countP progressEff = 2 :=
  ⟨(c3_amended 2 envC3 "c3w-1" ⟨"c3w-1", "echo", JVal.null, none⟩ 100
      (fun _ => by simp [envC3])).1,
   (c3_amended 2 envC3 "c3w-1" ⟨"c3w-1", "echo", JVal.null, none⟩ 100
      (fun _ => by simp [envC3])).2.1⟩

/-- Frames are dropped once the table is empty. -/
theorem mcRun_nil_table (recv : Option JVal → Bool) (fs : List JVal) :
    mcRun recv [] fs = ([], []) := by
  induction fs with
  | nil => rfl
  | cons f fs ih =>
    cases h : frameId f <;> simp [mcRun, mcOnMessage, h, ih, List.lookup]

/-- A well-formed frame routes by its identifier. -/
theorem frameId_mkFrame (mid : String) (p : JVal) (h : mid ≠ "") :
    frameId (mkFrame mid p) = some mid := by
  simp [frameId, mkFrame, JVal.mkObj, JFields.ofList, JVal.getField,
    JFields.lookup, h]

/-- A well-formed frame's `response` field is its payload. -/
theorem getField_mkFrame_response (mid : String) (p : JVal) :
    (mkFrame mid p).getField "response" = some p := by
  simp [mkFrame, JVal.mkObj, JFields.ofList, JVal.getField, JFields.lookup]

/-- C5 — confirmed.  Feeding a registered multi-response call the inbound
frames `{id, response: pᵢ}` in order: the receiver is invoked exactly once
per frame, in arrival order, up to and including the first payload it
accepts; on exactly that first accepted payload the call reaches its
terminal state — timer cleared, entry deregistered (final table empty),
success callback invoked with the delivered payload; frames after the
accepted one are not delivered to the call (no further receiver invocation
appears in the trace); and if no payload is accepted the call stays
registered, unchanged, its timer not reset. -/
theorem c5_streaming (recv : Option JVal → Bool) (mid : String) (c : CallSt)
    (ps : List JVal) (hmid : mid ≠ "") (hc : c.mid = mid) :
    mcRun recv [(mid, c)] (ps.map (mkFrame mid)) =
      (if ps.any (fun p => recv (some p)) then [] else [(mid, c)],
       expectedMultiTrace recv mid ps) := by
  induction ps with
  | nil => simp [mcRun, expectedMultiTrace]
  | cons p ps ih =>
    have hlk : (([(mid, c)] : Table).lookup mid) = some c := by
      simp [List.lookup]
    by_cases hf : recv (some p)
    · simp [mcRun, mcOnMessage, frameId_mkFrame mid p hmid, hlk,
        getField_mkFrame_response, mcOnReceived, hf, hc, Table.updateEntry,
        Table.eraseKey, mcRun_nil_table, expectedMultiTrace]
    · simp [mcRun, mcOnMessage, frameId_mkFrame mid p hmid, hlk,
        getField_mkFrame_response, mcOnReceived, hf, hc,
        expectedMultiTrace, ih]

/-- C5 — witness: the spec's own example shape.  Two non-final payloads
then the final one, followed by a stray post-termination frame: the
receiver fires three times in order, termination happens exactly on the
third payload, and the fourth frame is not delivered. -/
theorem c5_witness :
    mcRun recvDone [("c5-1", cC5)] ([pC5f, pC5f, pC5t].map (mkFrame "c5-1")) =
      ([], expectedMultiTrace recvDone "c5-1" [pC5f, pC5f, pC5t]) ∧
    expectedMultiTrace recvDone "c5-1" [pC5f, pC5f, pC5t] =
      [Eff.recvCall "c5-1" (some pC5f) false, Eff.recvCall "c5-1" (some pC5f) false,
       Eff.recvCall "c5-1" (some pC5t) true, Eff.clearTimer,
       Eff.callSuccess "c5-1" (some pC5t)] ∧
    (mcRun recvDone [("c5-1", cC5)]
        ([pC5f, pC5f, pC5t, pC5f].map (mkFrame "c5-1"))).2 =
      expectedMultiTrace recvDone "c5-1" [pC5f, pC5f, pC5t] :=
  ⟨by
    have h := c5_streaming recvDone "c5-1" cC5 [pC5f, pC5f, pC5t]
      (by decide) rfl
    simpa using h,
   by decide,
   by decide⟩

/-- When the delivered payload holds no truthy error — neither at its top
level nor nested under its `response` field — `onReceived` takes the
success path. -/
theorem scOnReceivedEffs_success (mid : String) (p : JVal)
    (h : optTruthy (respErrorToHandle (some p)) = false) :
    scOnReceivedEffs mid (some p) =
      [Eff.clearTimer, Eff.callSuccess mid (p.getField "response")] := by
  unfold scOnReceivedEffs
  cases hr : respErrorToHandle (some p) with
  | none => rfl
  | some ev =>
    have hev : ev.truthy = false := by simpa [optTruthy, hr] using h
    simp [hev]

/-- C10 — confirmed.  When `scheduleReconnect` exceeds the maximum attempt
count it invokes each in-flight call's error callback with the
transport-failure error but removes no entry from the in-flight table and
sets no completion flag: the failed call stays registered under its
identifier with its state (including `complete = false`) intact, so a frame
bearing that identifier that arrives afterwards is still dispatched to the
call and invokes its success callback after the error callback has already
run. -/
theorem c10_lateFrame (jitter : ℚ) (api : BApi) (mid : String) (c : CallSt)
    (p : JVal)
    (h1 : api.reconnectionState ≠ RState.reconnecting)
    (h2 : api.reconnectTimer = none)
    (h3 : api.reconnectAttempts + 1 > api.maxReconnectAttempts)
    (h4 : api.inflight.lookup mid = some c)
    (h5 : optTruthy (respErrorToHandle (some p)) = false)
    (h6 : mid ≠ "") (h7 : c.mid = mid) (h8 : c.complete = false) :
    Eff.callError mid (ErrVal.errObj "WebSocket connection failed")
      ∈ (scheduleReconnect jitter api).2 ∧
    (scheduleReconnect jitter api).1.inflight = api.inflight ∧
    (scheduleReconnect jitter api).1.inflight.lookup mid = some c ∧
    c.complete = false ∧
    Eff.callSuccess mid (p.getField "response")
      ∈ (onMessage (scheduleReconnect jitter api).1 (mkFrame mid p)).2 := by
  have heq : scheduleReconnect jitter api =
      ({ api with
          reconnectionState := RState.failed,
          reconnectAttempts := api.reconnectAttempts + 1,
          lastError := some "Max reconnection attempts exceeded" },
       Eff.notifyState :: Eff.notifyState ::
         api.inflight.map
           (fun e => Eff.callError e.1 (ErrVal.errObj "WebSocket connection failed"))) := by
    simp [scheduleReconnect, h1, h2, h3]
  have hmem : (mid, c) ∈ api.inflight := lookup_mem h4
  refine ⟨?_, ?_, ?_, h8, ?_⟩
  · rw [heq]
    have : Eff.callError mid (ErrVal.errObj "WebSocket connection failed")
        ∈ api.inflight.map
            (fun e => Eff.callError e.1 (ErrVal.errObj "WebSocket connection failed")) :=
      List.mem_map_of_mem _ hmem
    simp
    tauto
  · rw [heq]
  · rw [heq]
    exact h4
  · rw [heq]
    simp [onMessage, frameId_mkFrame mid p h6, h4, scOnReceived,
      getField_mkFrame_response, scOnReceivedEffs_success mid p h5, h7]

/-- C10 — witness: the scenario at the concrete client `apiC10` (attempt
counter exhausted, call `z-1` in flight) and the late error-free frame
`{id: "z-1", response: {response: 7}}`. -/
theorem c10_witness :
    Eff.callError "z-1" (ErrVal.errObj "WebSocket connection failed")
      ∈ (scheduleReconnect 0 apiC10).2 ∧
    (scheduleReconnect 0 apiC10).1.inflight.lookup "z-1" = some cC10 ∧
    Eff.callSuccess "z-1" (some (JVal.num 7))
      ∈ (onMessage (scheduleReconnect 0 apiC10).1 (mkFrame "z-1" pC10)).2 :=
  ⟨(c10_lateFrame 0 apiC10 "z-1" cC10 pC10 (by decide) rfl (by decide) rfl
      (by decide) (by decide) rfl rfl).1,
   (c10_lateFrame 0 apiC10 "z-1" cC10 pC10 (by decide) rfl (by decide) rfl
      (by decide) (by decide) rfl rfl).2.2.1,
   (c10_lateFrame 0 apiC10 "z-1" cC10 pC10 (by decide) rfl (by decide) rfl
      (by decide) (by decide) rfl rfl).2.2.2.2⟩

/-- Every decimal digit produced is below 10. -/
theorem toDigitsRev_lt_ten :
    ∀ (fuel n d : Nat), d ∈ toDigitsRev fuel n → d < 10 := by
  intro fuel
  induction fuel with
  | zero => intro n d h; simp [toDigitsRev] at h
  | succ f ih =>
    intro n d h
    by_cases hn : n = 0
    · simp [toDigitsRev, hn] at h
    · rw [toDigitsRev, if_neg hn] at h
      rcases List.mem_cons.mp h with h | h
      · subst h
        exact Nat.mod_lt _ (by norm_num)
      · exact ih _ _ h

/-- Parsing inverts digit production whenever the fuel suffices. -/
theorem parseRev_toDigitsRev :
    ∀ (fuel n : Nat), n ≤ fuel → parseRev (toDigitsRev fuel n) = n := by
  intro fuel
  induction fuel with
  | zero =>
    intro n h
    interval_cases n
    rfl
  | succ f ih =>
    intro n h
    by_cases hn : n = 0
    · simp [toDigitsRev, hn, parseRev]
    · rw [toDigitsRev, if_neg hn, parseRev]
      have hdiv : n / 10 ≤ f := by
        have : n / 10 < n := Nat.div_lt_self (Nat.pos_of_ne_zero hn) (by norm_num)
        omega
      rw [ih _ hdiv]
      exact Nat.mod_add_div n 10

/-- `decDigitVal` inverts `Nat.digitChar` on decimal digits. -/
theorem decDigitVal_digitChar : ∀ d : Nat, d < 10 → decDigitVal (Nat.digitChar d) = d := by
  decide

/-- Parsing inverts the decimal rendering. -/
theorem parseNat_natToString (n : Nat) : parseNat (natToString n) = n := by
  by_cases hn : n = 0
  · subst hn
    decide
  · rw [natToString, if_neg hn]
    show parseRev ((String.mk (((natDigitsRev n).map Nat.digitChar).reverse)).data.reverse.map decDigitVal) = n
    rw [show (String.mk (((natDigitsRev n).map Nat.digitChar).reverse)).data =
        ((natDigitsRev n).map Nat.digitChar).reverse from rfl]
    rw [List.reverse_reverse, List.map_map]
    have hmap : (natDigitsRev n).map (decDigitVal ∘ Nat.digitChar) = (natDigitsRev n).map id := by
      apply List.map_congr_left
      intro d hd
      exact decDigitVal_digitChar d (toDigitsRev_lt_ten n n d hd)
    rw [hmap, List.map_id]
    exact parseRev_toDigitsRev n n le_rfl

/-- The decimal rendering of counters is injective. -/
theorem natToString_inj {m n : Nat} (h : natToString m = natToString n) : m = n := by
  rw [← parseNat_natToString m, ← parseNat_natToString n, h]

/-- String concatenation concatenates the underlying character lists. -/
theorem string_data_append (a b : String) : (a ++ b).data = a.data ++ b.data := rfl

/-- Appending distinct decimal suffixes to the same `tag + "-"` prefix
yields distinct identifiers. -/
theorem tagged_id_inj {t s1 s2 : String} (h : t ++ "-" ++ s1 = t ++ "-" ++ s2) :
    s1 = s2 := by
  have hd : (t ++ "-").data ++ s1.data = (t ++ "-").data ++ s2.data := by
    have := congrArg String.data h
    rwa [string_data_append, string_data_append] at this
  have : s1.data = s2.data := List.append_cancel_left hd
  cases s1
  cases s2
  exact congrArg String.mk this

/-- `getNextId` never changes the client tag. -/
theorem iterNextId_tag (api : BApi) : ∀ k, (iterNextId api k).tag = api.tag := by
  intro k
  induction k with
  | zero => rfl
  | succ k ih => simpa [iterNextId, getNextId] using ih

/-- The counter after `k` issuances. -/
theorem iterNextId_idCtr (api : BApi) : ∀ k, (iterNextId api k).idCtr = api.idCtr + k := by
  intro k
  induction k with
  | zero => rfl
  | succ k ih => simp [iterNextId, getNextId, ih]; ring

/-- The `(k+1)`-th identifier issued. -/
theorem issuedId_eq (api : BApi) (k : Nat) :
    issuedId api k = api.tag ++ "-" ++ natToString (api.idCtr + k) := by
  rw [issuedId, getNextId, iterNextId_tag, iterNextId_idCtr]

/-- C8 — confirmed.  For every pair of distinct `getNextId` invocations of
one client instance the returned identifiers are unequal; each identifier
has the form `tag + "-" + counter` where the tag is the per-instance string
fixed at construction (never modified by `getNextId`) and the counter
increases by exactly one per invocation, hence strictly monotonically. -/
theorem c8_nextId (api : BApi) (i j : Nat) (hij : i ≠ j) :
    issuedId api i ≠ issuedId api j ∧
    issuedId api i = api.tag ++ "-" ++ natToString (api.idCtr + i) ∧
    (iterNextId api i).tag = api.tag ∧
    (iterNextId api (i + 1)).idCtr = (iterNextId api i).idCtr + 1 := by
  refine ⟨?_, issuedId_eq api i, iterNextId_tag api i, ?_⟩
  · intro h
    rw [issuedId_eq, issuedId_eq] at h
    exact hij (Nat.add_left_cancel (natToString_inj (tagged_id_inj h)))
  · rw [iterNextId_idCtr, iterNextId_idCtr]
    ring

/-- C8 — witness: the first two identifiers issued by the concrete client
`apiC8` differ, and take the documented shape. -/
theorem c8_witness :
    issuedId apiC8 0 ≠ issuedId apiC8 1 ∧
    issuedId apiC8 0 = "k7f2" ++ "-" ++ natToString 1 :=
  ⟨(c8_nextId apiC8 0 1 (by decide)).1,
   (c8_nextId apiC8 0 1 (by decide)).2.1⟩

end TGC
